import Mathlib

/-!
Verification of the software-rasterizer front-end pipeline (frontend.cpp):
topology arithmetic, SIMD batch scheduling, stream-out publication, the
geometry-shader stage stream loop, the tessellation stage scratch-buffer
sizing, and the draw orchestrator vertex loop.  All definitions are shallow
embeddings of the corresponding C++ functions; machine integers are modelled
as Nat (no value in these functions approaches the uint32 range in the
properties considered, and the source arithmetic on them never wraps for the
inputs quantified over).
-/

namespace Frontend

/-- Primitive topology enumeration (PRIMITIVE_TOPOLOGY).  The patch-list
topologies TOP_PATCHLIST_1 .. TOP_PATCHLIST_32 are encoded by their degree
offset from TOP_PATCHLIST_BASE, so TOP_PATCHLIST 0 stands for
TOP_PATCHLIST_BASE itself (an unsupported value) and TOP_PATCHLIST d for
1 <= d <= 32 stands for TOP_PATCHLIST_d. -/
inductive Topology where
  | TOP_UNKNOWN
  | TOP_POINT_LIST
  | TOP_LINE_LIST
  | TOP_LINE_STRIP
  | TOP_TRIANGLE_LIST
  | TOP_TRIANGLE_STRIP
  | TOP_TRIANGLE_FAN
  | TOP_QUAD_LIST
  | TOP_QUAD_STRIP
  | TOP_LINE_LOOP
  | TOP_TRIANGLE_DISC
  | TOP_RECT_LIST
  | TOP_LINE_LIST_ADJ
  | TOP_LISTSTRIP_ADJ
  | TOP_TRI_LIST_ADJ
  | TOP_TRI_STRIP_ADJ
  | TOP_PATCHLIST (d : Nat)
  | TOP_POLYGON
  | TOP_POINT_LIST_BF
  | TOP_LINE_STRIP_CONT
  | TOP_LINE_STRIP_BF
  | TOP_LINE_STRIP_CONT_BF
  | TOP_TRIANGLE_FAN_NOSTIPPLE
  | TOP_TRI_STRIP_REVERSE
deriving DecidableEq, Repr

/-- The topologies handled by the supported arms of the GetNumPrims and
GetNumVerts switches; the remaining enumerators fall into the
SWR_INVALID("Unsupported topology") arm. -/
def isSupportedTopology : Topology → Bool
  | .TOP_POINT_LIST => true
  | .TOP_TRIANGLE_LIST => true
  | .TOP_TRIANGLE_STRIP => true
  | .TOP_TRIANGLE_FAN => true
  | .TOP_TRIANGLE_DISC => true
  | .TOP_QUAD_LIST => true
  | .TOP_QUAD_STRIP => true
  | .TOP_LINE_STRIP => true
  | .TOP_LINE_LIST => true
  | .TOP_LINE_LOOP => true
  | .TOP_RECT_LIST => true
  | .TOP_LINE_LIST_ADJ => true
  | .TOP_LISTSTRIP_ADJ => true
  | .TOP_TRI_LIST_ADJ => true
  | .TOP_TRI_STRIP_ADJ => true
  | .TOP_PATCHLIST d => decide (1 ≤ d) && decide (d ≤ 32)
  | _ => false

/-- GetNumPrims (frontend.cpp lines 240-310): number of primitives given the
number of vertices or indices.  The unsupported-topology arm raises
SWR_INVALID and returns 0; the patch-list arm computes
numPrims / (mode - TOP_PATCHLIST_BASE).  TOP_PATCHLIST 0 (the BASE value) is
in the unsupported arm and returns 0, which coincides with Nat division by
zero for degrees outside the enumerated 1..32 range. -/
def GetNumPrims (mode : Topology) (numPrims : Nat) : Nat :=
  match mode with
  | .TOP_POINT_LIST => numPrims
  | .TOP_TRIANGLE_LIST => numPrims / 3
  | .TOP_TRIANGLE_STRIP => if numPrims < 3 then 0 else numPrims - 2
  | .TOP_TRIANGLE_FAN => if numPrims < 3 then 0 else numPrims - 2
  | .TOP_TRIANGLE_DISC => if numPrims < 2 then 0 else numPrims - 1
  | .TOP_QUAD_LIST => numPrims / 4
  | .TOP_QUAD_STRIP => if numPrims < 4 then 0 else (numPrims - 2) / 2
  | .TOP_LINE_STRIP => if numPrims < 2 then 0 else numPrims - 1
  | .TOP_LINE_LIST => numPrims / 2
  | .TOP_LINE_LOOP => numPrims
  | .TOP_RECT_LIST => numPrims / 3
  | .TOP_LINE_LIST_ADJ => numPrims / 4
  | .TOP_LISTSTRIP_ADJ => if numPrims < 3 then 0 else numPrims - 3
  | .TOP_TRI_LIST_ADJ => numPrims / 6
  | .TOP_TRI_STRIP_ADJ => if numPrims < 4 then 0 else numPrims / 2 - 2
  | .TOP_PATCHLIST d => if 1 ≤ d ∧ d ≤ 32 then numPrims / d else 0
  | _ => 0

/-- GetNumVerts (frontend.cpp lines 316-386): number of vertices given the
number of primitives.  Ternary expressions of the form "numPrims ? e : 0"
become an equality test against zero. -/
def GetNumVerts (mode : Topology) (numPrims : Nat) : Nat :=
  match mode with
  | .TOP_POINT_LIST => numPrims
  | .TOP_TRIANGLE_LIST => numPrims * 3
  | .TOP_TRIANGLE_STRIP => if numPrims ≠ 0 then numPrims + 2 else 0
  | .TOP_TRIANGLE_FAN => if numPrims ≠ 0 then numPrims + 2 else 0
  | .TOP_TRIANGLE_DISC => if numPrims ≠ 0 then numPrims + 1 else 0
  | .TOP_QUAD_LIST => numPrims * 4
  | .TOP_QUAD_STRIP => if numPrims ≠ 0 then numPrims * 2 + 2 else 0
  | .TOP_LINE_STRIP => if numPrims ≠ 0 then numPrims + 1 else 0
  | .TOP_LINE_LIST => numPrims * 2
  | .TOP_LINE_LOOP => numPrims
  | .TOP_RECT_LIST => numPrims * 3
  | .TOP_LINE_LIST_ADJ => numPrims * 4
  | .TOP_LISTSTRIP_ADJ => if numPrims ≠ 0 then numPrims + 3 else 0
  | .TOP_TRI_LIST_ADJ => numPrims * 6
  | .TOP_TRI_STRIP_ADJ => if numPrims ≠ 0 then (numPrims + 2) * 2 else 0
  | .TOP_PATCHLIST d => if 1 ≤ d ∧ d ≤ 32 then numPrims * d else 0
  | _ => 0

/-- NumVertsPerPrim (frontend.cpp lines 392-475): vertices per primitive,
optionally counting adjacency vertices. -/
def NumVertsPerPrim (topology : Topology) (includeAdjVerts : Bool) : Nat :=
  let numVerts : Nat :=
    match topology with
    | .TOP_POINT_LIST | .TOP_POINT_LIST_BF => 1
    | .TOP_LINE_LIST | .TOP_LINE_STRIP | .TOP_LINE_LIST_ADJ | .TOP_LINE_LOOP
    | .TOP_LINE_STRIP_CONT | .TOP_LINE_STRIP_BF | .TOP_LISTSTRIP_ADJ => 2
    | .TOP_TRIANGLE_LIST | .TOP_TRIANGLE_STRIP | .TOP_TRIANGLE_FAN
    | .TOP_TRI_LIST_ADJ | .TOP_TRI_STRIP_ADJ | .TOP_TRI_STRIP_REVERSE
    | .TOP_RECT_LIST => 3
    | .TOP_QUAD_LIST | .TOP_QUAD_STRIP => 4
    | .TOP_PATCHLIST d => if 1 ≤ d ∧ d ≤ 32 then d else 0
    | _ => 0
  if includeAdjVerts then
    match topology with
    | .TOP_LISTSTRIP_ADJ | .TOP_LINE_LIST_ADJ => 4
    | .TOP_TRI_STRIP_ADJ | .TOP_TRI_LIST_ADJ => 6
    | _ => numVerts
  else numVerts

/-- The value claim C1 asserts for the round trip
GetNumVerts(T, GetNumPrims(T, n)), written from the words of the claim: for
a list topology the largest multiple of the per-primitive vertex count not
exceeding n; for a strip, fan, loop or disc topology, n itself once n reaches
the minimum vertex count needed for one primitive and 0 below that minimum. -/
def c1ClaimedRoundTrip (mode : Topology) (n : Nat) : Nat :=
  match mode with
  | .TOP_POINT_LIST => n / 1 * 1
  | .TOP_TRIANGLE_LIST => n / 3 * 3
  | .TOP_QUAD_LIST => n / 4 * 4
  | .TOP_LINE_LIST => n / 2 * 2
  | .TOP_RECT_LIST => n / 3 * 3
  | .TOP_LINE_LIST_ADJ => n / 4 * 4
  | .TOP_TRI_LIST_ADJ => n / 6 * 6
  | .TOP_PATCHLIST d => n / d * d
  | .TOP_TRIANGLE_STRIP => if n < 3 then 0 else n
  | .TOP_TRIANGLE_FAN => if n < 3 then 0 else n
  | .TOP_TRIANGLE_DISC => if n < 2 then 0 else n
  | .TOP_QUAD_STRIP => if n < 4 then 0 else n
  | .TOP_LINE_STRIP => if n < 2 then 0 else n
  | .TOP_LINE_LOOP => if n < 2 then 0 else n
  | .TOP_LISTSTRIP_ADJ => if n < 4 then 0 else n
  | .TOP_TRI_STRIP_ADJ => if n < 6 then 0 else n
  | _ => 0

/-- The round-trip value the code actually computes, in closed form: as in
c1ClaimedRoundTrip except that a quad strip and a triangle strip with
adjacency also round n down to an even primitive boundary, and a line loop
yields n for every n with no minimum. -/
def c1AmendedRoundTrip (mode : Topology) (n : Nat) : Nat :=
  match mode with
  | .TOP_POINT_LIST => n / 1 * 1
  | .TOP_TRIANGLE_LIST => n / 3 * 3
  | .TOP_QUAD_LIST => n / 4 * 4
  | .TOP_LINE_LIST => n / 2 * 2
  | .TOP_RECT_LIST => n / 3 * 3
  | .TOP_LINE_LIST_ADJ => n / 4 * 4
  | .TOP_TRI_LIST_ADJ => n / 6 * 6
  | .TOP_PATCHLIST d => n / d * d
  | .TOP_TRIANGLE_STRIP => if n < 3 then 0 else n
  | .TOP_TRIANGLE_FAN => if n < 3 then 0 else n
  | .TOP_TRIANGLE_DISC => if n < 2 then 0 else n
  | .TOP_QUAD_STRIP => if n < 4 then 0 else n - n % 2
  | .TOP_LINE_STRIP => if n < 2 then 0 else n
  | .TOP_LINE_LOOP => n
  | .TOP_LISTSTRIP_ADJ => if n < 4 then 0 else n
  | .TOP_TRI_STRIP_ADJ => if n < 6 then 0 else n - n % 2
  | _ => 0

end Frontend

namespace Frontend

/-- C1 counterexample: for a quad strip with 5 vertices the code prunes to 4
vertices (2 quad-strip primitives need 6), while the claim, reading a quad
strip as a strip topology at or above its 4-vertex minimum, asserts the
round trip returns 5 unchanged. -/
theorem c1_quad_strip_5_counterexample :
    GetNumVerts .TOP_QUAD_STRIP (GetNumPrims .TOP_QUAD_STRIP 5) = 4 ∧
    c1ClaimedRoundTrip .TOP_QUAD_STRIP 5 = 5 ∧
    GetNumVerts .TOP_QUAD_STRIP (GetNumPrims .TOP_QUAD_STRIP 5) ≠
      c1ClaimedRoundTrip .TOP_QUAD_STRIP 5 := by
  refine ⟨rfl, rfl, ?_⟩
  decide

/-- C1 amended: for every supported topology T and count n, the round trip
GetNumVerts(T, GetNumPrims(T, n)) equals n rounded down to the nearest valid
primitive boundary: the largest multiple of the per-primitive vertex count
for list topologies, n itself above the one-primitive minimum (0 below it)
for strips, fans and the disc, except that quad strips and adjacency
triangle strips also round down to an even count, and a line loop returns n
for every n with no minimum. -/
theorem c1_round_trip_amended (mode : Topology) (n : Nat)
    (h : isSupportedTopology mode = true) :
    GetNumVerts mode (GetNumPrims mode n) = c1AmendedRoundTrip mode n := by
  cases mode <;>
    simp_all [isSupportedTopology, GetNumPrims, GetNumVerts, c1AmendedRoundTrip] <;>
    split_ifs <;> omega

/-- C1 amended witness at triangle list n = 10 (the example of the spec). -/
theorem c1_round_trip_amended_witness :
    GetNumVerts .TOP_TRIANGLE_LIST (GetNumPrims .TOP_TRIANGLE_LIST 10) =
      c1AmendedRoundTrip .TOP_TRIANGLE_LIST 10 :=
  c1_round_trip_amended .TOP_TRIANGLE_LIST 10 (by decide)

/-- C4 counterexample: the claim states GetNumPrims(line-loop, 1) = 0, but
the line-loop arm of GetNumPrims returns its input unchanged, so
GetNumPrims(line-loop, 1) = 1: the line loop neither subtracts an overlap
nor floors at zero below a minimum vertex count. -/
theorem c4_line_loop_counterexample :
    GetNumPrims .TOP_LINE_LOOP 1 = 1 ∧ GetNumPrims .TOP_LINE_LOOP 1 ≠ 0 := by
  decide

/-- C4 amended: every strip, fan and disc topology subtracts its fixed
vertex overlap (2 for triangle strip and fan, 1 for line strip and disc, 2
for quad strip, 3 for line-strip adjacency, 4 for triangle-strip adjacency,
divided by the per-primitive vertex step) and floors at zero below the
minimum vertex count for one primitive; the line loop however returns the
input count unchanged for every n, with no overlap subtraction and no
floor. -/
theorem c4_strip_fan_loop_amended (n : Nat) :
    GetNumPrims .TOP_TRIANGLE_STRIP n = (if n < 3 then 0 else (n - 2) / 1) ∧
    GetNumPrims .TOP_TRIANGLE_FAN n = (if n < 3 then 0 else (n - 2) / 1) ∧
    GetNumPrims .TOP_TRIANGLE_DISC n = (if n < 2 then 0 else (n - 1) / 1) ∧
    GetNumPrims .TOP_LINE_STRIP n = (if n < 2 then 0 else (n - 1) / 1) ∧
    GetNumPrims .TOP_QUAD_STRIP n = (if n < 4 then 0 else (n - 2) / 2) ∧
    GetNumPrims .TOP_LISTSTRIP_ADJ n = (if n < 4 then 0 else (n - 3) / 1) ∧
    GetNumPrims .TOP_TRI_STRIP_ADJ n = (if n < 6 then 0 else (n - 4) / 2) ∧
    GetNumPrims .TOP_LINE_LOOP n = n := by
  refine ⟨?_, ?_, ?_, ?_, ?_, ?_, ?_, ?_⟩ <;>
    (simp only [GetNumPrims]; try (split_ifs <;> omega))

/-- Number of set bits of a natural number, used to count active lanes of a
SIMD mask. -/
def popCount (n : Nat) : Nat :=
  if h : n = 0 then 0 else popCount (n / 2) + n % 2
decreasing_by exact Nat.div_lt_self (Nat.pos_of_ne_zero h) (by omega)

/-- A mask of k low bits set has population count exactly k. -/
theorem popCount_two_pow_sub_one (k : Nat) : popCount (2 ^ k - 1) = k := by
  induction k with
  | zero => simp [popCount]
  | succ k ih =>
    have hp : (2 : Nat) ^ (k + 1) = 2 * 2 ^ k := by rw [pow_succ]; ring
    have h1 : (1 : Nat) ≤ 2 ^ k := Nat.one_le_two_pow
    have h2 : (2 : Nat) ^ (k + 1) - 1 = 2 * (2 ^ k - 1) + 1 := by omega
    rw [h2, popCount]
    have hne : ¬(2 * (2 ^ k - 1) + 1 = 0) := by omega
    rw [dif_neg hne]
    have hdiv : (2 * (2 ^ k - 1) + 1) / 2 = 2 ^ k - 1 := by omega
    have hmod : (2 * (2 ^ k - 1) + 1) % 2 = 1 := by omega
    rw [hdiv, hmod, ih]

/-- GenerateMask (frontend.cpp lines 480-485), with the SIMD width
KNOB_SIMD_WIDTH kept as a parameter: numActive = min(width, remaining) and
the mask has the numActive low bits set (0 when numActive is 0). -/
def GenerateMask (simdWidth numItemsRemaining : Nat) : Nat :=
  let numActive : Nat :=
    if numItemsRemaining ≥ simdWidth then simdWidth else numItemsRemaining
  if numActive > 0 then 2 ^ numActive - 1 else 0

/-- The generated mask is always the all-low-bits mask of the active count. -/
theorem generateMask_eq_two_pow_sub_one (simdWidth n : Nat) :
    GenerateMask simdWidth n = 2 ^ min simdWidth n - 1 := by
  unfold GenerateMask
  dsimp only
  have hm : (if n ≥ simdWidth then simdWidth else n) = min simdWidth n := by
    split_ifs <;> omega
  rw [hm]
  split_ifs with h
  · rfl
  · have h0 : min simdWidth n = 0 := by omega
    simp [h0]

/-- Population count of the generated mask is min(width, remaining). -/
theorem popCount_generateMask (simdWidth n : Nat) :
    popCount (GenerateMask simdWidth n) = min simdWidth n := by
  rw [generateMask_eq_two_pow_sub_one, popCount_two_pow_sub_one]

/-- GetNumInvocations (frontend.cpp lines 655-665), with the SIMD width kept
as a parameter: the number of work items the next batch will process. -/
def GetNumInvocations (simdWidth curIndex maxIndex : Nat) : Nat :=
  let remainder := maxIndex - curIndex
  if remainder ≥ simdWidth then simdWidth else remainder

/-- C7: for curIndex <= maxIndex, GetNumInvocations(curIndex, maxIndex)
equals min(width, maxIndex - curIndex), saturating at the SIMD width; and
the lane mask produced by GenerateMask(n) has population count exactly
min(width, n), in particular 0 active lanes when n = 0. -/
theorem c7_batch_scheduler (simdWidth curIndex maxIndex n : Nat)
    (h : curIndex ≤ maxIndex) :
    GetNumInvocations simdWidth curIndex maxIndex
      = min simdWidth (maxIndex - curIndex) ∧
    (simdWidth ≤ maxIndex - curIndex →
      GetNumInvocations simdWidth curIndex maxIndex = simdWidth) ∧
    (maxIndex - curIndex < simdWidth →
      GetNumInvocations simdWidth curIndex maxIndex = maxIndex - curIndex) ∧
    popCount (GenerateMask simdWidth n) = min simdWidth n ∧
    (n = 0 → GenerateMask simdWidth n = 0) := by
  refine ⟨?_, ?_, ?_, popCount_generateMask simdWidth n, ?_⟩
  · unfold GetNumInvocations; dsimp only; split_ifs <;> omega
  · intro hW; unfold GetNumInvocations; dsimp only; split_ifs <;> omega
  · intro hW; unfold GetNumInvocations; dsimp only; split_ifs <;> omega
  · intro hn; subst hn
    rw [generateMask_eq_two_pow_sub_one]
    simp

/-- C7 witness at width 8, curIndex 3, maxIndex 10, remaining 5. -/
theorem c7_batch_scheduler_witness :
    GetNumInvocations 8 3 10 = min 8 (10 - 3) ∧
    (8 ≤ 10 - 3 → GetNumInvocations 8 3 10 = 8) ∧
    ((10 : Nat) - 3 < 8 → GetNumInvocations 8 3 10 = 10 - 3) ∧
    popCount (GenerateMask 8 5) = min 8 5 ∧
    ((5 : Nat) = 0 → GenerateMask 8 5 = 0) :=
  c7_batch_scheduler 8 3 10 5 (by decide)

/-- Computation of endVertex in ProcessDraw (frontend.cpp lines 1432 and
1457-1461): an indexed draw keeps the raw count, a non-indexed draw prunes
partial primitives to the last complete primitive boundary. -/
def computeEndVertex (isIndexed : Bool) (topology : Topology)
    (numVerts : Nat) : Nat :=
  if isIndexed then numVerts
  else GetNumVerts topology (GetNumPrims topology numVerts)

/-- The fetch-and-vertex-shade step for one SIMD batch of the per-instance
loop of ProcessDraw (frontend.cpp lines 1815-1847): the fetch and vertex
shader run only when the batch start index i satisfies i < endVertex, and
the vertex-shader context mask is then GenerateMask(endVertex - i); when
i >= endVertex the batch performs no fetch and no vertex-shader call
(result none). -/
def processDrawBatchVS (endVertex i simdWidth : Nat) : Option Nat :=
  if i < endVertex then some (GenerateMask simdWidth (endVertex - i)) else none

/-- C2: for a non-indexed draw, endVertex is
GetNumVerts(topology, GetNumPrims(topology, numVerts)); the batch step
invokes fetch and vertex shader exactly when i < endVertex; the mask it
hands to the vertex shader has exactly min(width, endVertex - i) active
lanes; and a lane of that mask is active exactly when it is below the width
and its vertex index i + lane lies below endVertex, so the vertex shader is
never run with an active lane at or beyond endVertex. -/
theorem c2_nonindexed_vs_pruning (topology : Topology)
    (numVerts simdWidth i : Nat) :
    computeEndVertex false topology numVerts
      = GetNumVerts topology (GetNumPrims topology numVerts) ∧
    (processDrawBatchVS (computeEndVertex false topology numVerts) i
        simdWidth).isSome
      = decide (i < computeEndVertex false topology numVerts) ∧
    (∀ m, processDrawBatchVS (computeEndVertex false topology numVerts) i
        simdWidth = some m →
      m = GenerateMask simdWidth (computeEndVertex false topology numVerts - i)) ∧
    popCount (GenerateMask simdWidth
        (computeEndVertex false topology numVerts - i))
      = min simdWidth (computeEndVertex false topology numVerts - i) ∧
    (∀ lane, Nat.testBit (GenerateMask simdWidth
        (computeEndVertex false topology numVerts - i)) lane
      = decide (lane < simdWidth ∧
          i + lane < computeEndVertex false topology numVerts)) := by
  refine ⟨rfl, ?_, ?_, popCount_generateMask _ _, ?_⟩
  · unfold processDrawBatchVS; split_ifs with h <;> simp [h]
  · intro m hm
    unfold processDrawBatchVS at hm
    by_cases h : i < computeEndVertex false topology numVerts
    · rw [if_pos h] at hm
      exact (Option.some_inj.mp hm).symm
    · rw [if_neg h] at hm
      exact Option.noConfusion hm
  · intro lane
    rw [generateMask_eq_two_pow_sub_one, Nat.testBit_two_pow_sub_one]
    rw [decide_eq_decide]
    omega

/-- C2 witness: triangle list with 10 vertices prunes endVertex to 9; the
batch at i = 8 of width 8 invokes the vertex shader with mask 1 (one active
lane for vertex 8). -/
theorem c2_nonindexed_vs_pruning_witness :
    (1 : Nat) = GenerateMask 8 (computeEndVertex false .TOP_TRIANGLE_LIST 10 - 8) :=
  (c2_nonindexed_vs_pruning .TOP_TRIANGLE_LIST 10 8 8).2.2.1 1 (by decide)

/-- The per-stream skip decision of the GeometryShaderStage stream loop
(frontend.cpp lines 890-916): in single-stream mode every stream other than
the configured singleStreamID is skipped; in multi-stream mode a stream is
skipped exactly when stream-out is enabled for the draw (HasStreamOutT) and
that stream is not enabled for stream-out (soState.streamEnable).  The
stream routed to the rasterizer plays no role in this decision. -/
def gsStreamSkipped (hasStreamOut isSingleStream : Bool)
    (singleStreamID : Nat) (streamEnable : Fin 4 → Bool)
    (stream : Fin 4) : Bool :=
  if isSingleStream then decide (¬ (singleStreamID = stream.val))
  else hasStreamOut && !(streamEnable stream)

/-- The skip condition claim C3 asserts for multi-stream mode, written from
the words of the claim: skipped only when the stream-out capture of the
stream is disabled and the stream is not the one routed to the rasterizer. -/
def c3ClaimedSkipCondition (streamEnable : Fin 4 → Bool)
    (streamToRasterizer stream : Fin 4) : Prop :=
  streamEnable stream = false ∧ stream ≠ streamToRasterizer

/-- C3 counterexample: multi-stream mode, stream-out enabled for the draw,
stream 0 routed to the rasterizer but with its stream-out capture disabled.
The code skips stream 0 (so it is neither assembled, streamed out, nor clip
dispatched), while the claim requires the rasterizer-routed stream always to
be processed. -/
theorem c3_rasterizer_stream_skipped_counterexample :
    gsStreamSkipped true false 0 (fun _ => false) 0 = true ∧
    ¬ c3ClaimedSkipCondition (fun _ => false) 0 0 := by
  constructor
  · rfl
  · intro hc
    exact hc.2 rfl

/-- C3 amended: in multi-stream mode a stream is skipped exactly when
stream-out is enabled for the draw and that stream's capture is disabled;
the stream routed to the rasterizer is not exempted, and when stream-out is
disabled for the draw no stream is skipped. -/
theorem c3_multistream_skip_amended (hasStreamOut : Bool)
    (singleStreamID : Nat) (streamEnable : Fin 4 → Bool) (stream : Fin 4) :
    (gsStreamSkipped hasStreamOut false singleStreamID streamEnable stream = true
      ↔ hasStreamOut = true ∧ streamEnable stream = false) ∧
    (hasStreamOut = false →
      gsStreamSkipped hasStreamOut false singleStreamID streamEnable stream
        = false) := by
  constructor
  · unfold gsStreamSkipped
    simp
  · intro h
    subst h
    rfl

/-- C3 amended witness: stream-out off, multi-stream, nothing skipped. -/
theorem c3_multistream_skip_amended_witness :
    gsStreamSkipped false false 0 (fun _ => false) 2 = false :=
  (c3_multistream_skip_amended false 0 (fun _ => false) 2).2 rfl

/-- The clip-dispatch functions the GeometryShaderStage can select. -/
inductive ClipFuncKind where
  | triangles
  | lines
  | points
deriving DecidableEq, Repr

/-- Clip-function selection of GeometryShaderStage (frontend.cpp lines
852-862, the non-SIMD16 path): pfnClipFunc starts as null, is assigned only
when rasterization is enabled, by switching on the GS output topology;
the default arm raises the fatal SWR_INVALID assertion (second component
true) and leaves the pointer null. -/
def gsSelectClipFunc (hasRast : Bool) (outputTopology : Topology) :
    Option ClipFuncKind × Bool :=
  if hasRast then
    match outputTopology with
    | .TOP_TRIANGLE_STRIP => (some .triangles, false)
    | .TOP_LINE_STRIP => (some .lines, false)
    | .TOP_POINT_LIST => (some .points, false)
    | _ => (none, true)
  else (none, false)

/-- C8: with rasterization enabled, the clip-dispatch function is selected
solely by the GS output topology: triangle strip selects ClipTriangles,
line strip ClipLines, point list ClipPoints; every other output topology
fires the invalid-configuration assertion and selects no clip function. -/
theorem c8_gs_clip_func_selection (t : Topology) :
    gsSelectClipFunc true .TOP_TRIANGLE_STRIP = (some .triangles, false) ∧
    gsSelectClipFunc true .TOP_LINE_STRIP = (some .lines, false) ∧
    gsSelectClipFunc true .TOP_POINT_LIST = (some .points, false) ∧
    (t ≠ .TOP_TRIANGLE_STRIP → t ≠ .TOP_LINE_STRIP → t ≠ .TOP_POINT_LIST →
      gsSelectClipFunc true t = (none, true)) := by
  refine ⟨rfl, rfl, rfl, ?_⟩
  intro h1 h2 h3
  cases t <;> simp_all [gsSelectClipFunc]

/-- C8 witness: a GS output topology of triangle list (not one of the three
supported output topologies) selects no clip function and asserts. -/
theorem c8_gs_clip_func_selection_witness :
    gsSelectClipFunc true .TOP_TRIANGLE_LIST = (none, true) :=
  (c8_gs_clip_func_selection .TOP_TRIANGLE_LIST).2.2.2
    (by decide) (by decide) (by decide)

/-- The (input primitive, GS instance) pairs of the GeometryShaderStage
output loop (frontend.cpp lines 872-883) that are processed, i.e. reach the
per-stream primitive-assembly loop: pair (p, instance) is skipped by the
continue when the GS invocation for p emitted zero vertices
(pVertexCount[p] == 0); for processed pairs a PA is constructed and
stream-out or clip dispatch can then run. -/
def gsProcessedPairs (numInputPrims instanceCount : Nat)
    (vertexCount : Nat → Nat) : List (Nat × Nat) :=
  (List.range numInputPrims).flatMap fun p =>
    (List.range instanceCount).filterMap fun inst =>
      if vertexCount p = 0 then none else some (p, inst)

/-- The GsInvocations statistics increment of GeometryShaderStage
(frontend.cpp line 1029): numInputPrims times the GS instance count,
independent of emitted vertex counts. -/
def gsInvocationsIncrement (numInputPrims instanceCount : Nat) : Nat :=
  numInputPrims * instanceCount

/-- C10: a (primitive, instance) pair is processed (PA constructed, with
stream-out and clip dispatch possible) exactly when the primitive index and
the instance index are in range and the GS emitted a nonzero vertex count
for that primitive - pairs with zero emitted vertices are skipped entirely -
while the GsInvocations statistic is incremented by numInputPrims times the
instance count regardless of the emitted vertex counts. -/
theorem c10_gs_zero_emit_skip (numInputPrims instanceCount : Nat)
    (vertexCount : Nat → Nat) (p inst : Nat) :
    ((p, inst) ∈ gsProcessedPairs numInputPrims instanceCount vertexCount
      ↔ p < numInputPrims ∧ inst < instanceCount ∧ vertexCount p ≠ 0) ∧
    gsInvocationsIncrement numInputPrims instanceCount
      = numInputPrims * instanceCount := by
  refine ⟨?_, rfl⟩
  unfold gsProcessedPairs
  simp only [List.mem_flatMap, List.mem_filterMap, List.mem_range]
  constructor
  · rintro ⟨q, hq, j, hj, hif⟩
    by_cases h : vertexCount q = 0
    · rw [if_pos h] at hif
      exact Option.noConfusion hif
    · rw [if_neg h] at hif
      obtain ⟨hq1, hq2⟩ := Prod.mk.injEq .. ▸ Option.some_inj.mp hif
      subst hq1
      subst hq2
      exact ⟨hq, hj, h⟩
  · rintro ⟨hp, hi, hv⟩
    exact ⟨p, hp, inst, hi, by rw [if_neg hv]⟩

/-- Per-buffer stream-out state visible to the publication loop of StreamOut
(SWR_STREAMOUT_BUFFER fields read at frontend.cpp lines 559-572):
streamOffset is the final dword cursor after the per-primitive loop ran the
stream-out function (soContext.pBuffer[i] aliases state.soBuffer[i]);
hasWriteOffsetPtr models pWriteOffset being non-null; soWriteEnable is the
write-back enable. -/
structure SoBufferState where
  streamOffset : Nat
  hasWriteOffsetPtr : Bool
  soWriteEnable : Bool

/-- Result of the publication loop of StreamOut: the caller-visible
write-offset slot per buffer (none when the descriptor provided no
pointer and the slot keeps its previous unknown content is modelled by
carrying the previous value through), the per-draw dynamic-state write
offsets, and their dirty flags. -/
structure SoPublishState where
  writeOffsetSlot : Fin 4 → Nat
  dynSoWriteOffset : Fin 4 → Nat
  dynSoWriteOffsetDirty : Fin 4 → Bool

/-- The final write-offset publication loop of StreamOut (frontend.cpp lines
559-572): for each of the four buffers, if the descriptor provided a
write-offset pointer the slot receives streamOffset * sizeof(uint32_t); if
write-back is enabled the per-draw dynamic-state offset receives the same
byte cursor and its dirty flag is set.  The streamIndex argument (the single
stream this StreamOut call processed) is carried to show the publication
does not depend on it. -/
def streamOutPublish (streamIndex : Nat) (buf : Fin 4 → SoBufferState)
    (prev : SoPublishState) : SoPublishState :=
  { writeOffsetSlot := fun i =>
      if (buf i).hasWriteOffsetPtr then (buf i).streamOffset * 4
      else prev.writeOffsetSlot i
    dynSoWriteOffset := fun i =>
      if (buf i).soWriteEnable then (buf i).streamOffset * 4
      else prev.dynSoWriteOffset i
    dynSoWriteOffsetDirty := fun i =>
      if (buf i).soWriteEnable then true
      else prev.dynSoWriteOffsetDirty i }

/-- C6: after StreamOut returns, for every buffer i with a caller-provided
write-offset pointer the caller-visible slot holds the final cursor in
bytes; for every buffer with write-back enabled the per-draw dynamic-state
write offset holds the same final cursor and its dirty flag is set; and the
publication is identical for every processed stream index. -/
theorem c6_streamout_publication (streamIndex otherStreamIndex : Nat)
    (buf : Fin 4 → SoBufferState) (prev : SoPublishState) (i : Fin 4) :
    ((buf i).hasWriteOffsetPtr = true →
      (streamOutPublish streamIndex buf prev).writeOffsetSlot i
        = (buf i).streamOffset * 4) ∧
    ((buf i).soWriteEnable = true →
      (streamOutPublish streamIndex buf prev).dynSoWriteOffset i
        = (buf i).streamOffset * 4 ∧
      (streamOutPublish streamIndex buf prev).dynSoWriteOffsetDirty i
        = true) ∧
    streamOutPublish streamIndex buf prev
      = streamOutPublish otherStreamIndex buf prev := by
  refine ⟨?_, ?_, rfl⟩
  · intro h
    simp [streamOutPublish, h]
  · intro h
    constructor <;> simp [streamOutPublish, h]

/-- C6 witness: buffer 2 with final cursor 25 dwords, a provided
write-offset pointer and write-back enabled publishes 100 bytes to both
slots and sets the dirty flag, for a call that processed stream 1. -/
theorem c6_streamout_publication_witness :
    (streamOutPublish 1
        (fun _ => SoBufferState.mk 25 true true)
        (SoPublishState.mk (fun _ => 0) (fun _ => 0) (fun _ => false))).writeOffsetSlot 2
      = 25 * 4 :=
  (c6_streamout_publication 1 3
      (fun _ => SoBufferState.mk 25 true true)
      (SoPublishState.mk (fun _ => 0) (fun _ => 0) (fun _ => false)) 2).1 rfl

/-- Round up to an even number, RoundUpEven (frontend.cpp lines 593-597). -/
def roundUpEven (value : Nat) : Nat := (value + 1) / 2 * 2

/-- The domain-shader output capacity update for one tessellated patch
(frontend.cpp lines 1240-1256): requiredDSVectorInvocations =
AlignUp(numDomainPoints, simdWidth) / simdWidth, requiredDSOutputVectors =
that times the DS output attribute count; when the requirement exceeds the
tracked capacity the buffer is reallocated and the tracked capacity becomes
the requirement (the SIMD16 build rounds the vector invocations up to even
before multiplying); otherwise the capacity is unchanged. -/
def dsCapacityStep (useSimd16 : Bool) (simdWidth numDsOutputAttribs : Nat)
    (cap numDomainPoints : Nat) : Nat :=
  let requiredDSVectorInvocations :=
    (numDomainPoints + simdWidth - 1) / simdWidth
  let requiredDSOutputVectors :=
    requiredDSVectorInvocations * numDsOutputAttribs
  if requiredDSOutputVectors > cap then
    if useSimd16 then roundUpEven requiredDSVectorInvocations * numDsOutputAttribs
    else requiredDSOutputVectors
  else cap

/-- The numDSOutputVectors value after one TessellationStages call
(frontend.cpp lines 1224-1386): the patch loop skips patches whose
tessellation produced zero primitives and otherwise applies the capacity
growth step; at the end of the call the SIMD16 build frees the buffer and
resets the tracked capacity to zero (lines 1379-1386), while the
non-SIMD16 build keeps it.  Each patch is a pair (numPrimitives,
numDomainPoints) of tessellator output. -/
def tessCapacityAfter (useSimd16 : Bool) (simdWidth numDsOutputAttribs : Nat)
    (patches : List (Nat × Nat)) (cap : Nat) : Nat :=
  let c := patches.foldl
    (fun c patch =>
      if patch.1 = 0 then c
      else dsCapacityStep useSimd16 simdWidth numDsOutputAttribs c patch.2)
    cap
  if useSimd16 then 0 else c

/-- One capacity step never decreases the tracked capacity. -/
theorem dsCapacityStep_le (useSimd16 : Bool)
    (simdWidth numDsOutputAttribs cap numDomainPoints : Nat) :
    cap ≤ dsCapacityStep useSimd16 simdWidth numDsOutputAttribs cap
      numDomainPoints := by
  unfold dsCapacityStep
  dsimp only
  split_ifs with h1 h2
  · calc cap ≤ (numDomainPoints + simdWidth - 1) / simdWidth
          * numDsOutputAttribs := le_of_lt h1
      _ ≤ roundUpEven ((numDomainPoints + simdWidth - 1) / simdWidth)
          * numDsOutputAttribs := by
          apply Nat.mul_le_mul_right
          unfold roundUpEven
          omega
  · exact le_of_lt h1
  · exact le_rfl

/-- The patch-loop fold never decreases the tracked capacity. -/
theorem tessPatchFold_le (useSimd16 : Bool)
    (simdWidth numDsOutputAttribs : Nat) (patches : List (Nat × Nat)) :
    ∀ cap, cap ≤ patches.foldl
      (fun c patch =>
        if patch.1 = 0 then c
        else dsCapacityStep useSimd16 simdWidth numDsOutputAttribs c patch.2)
      cap := by
  induction patches with
  | nil => intro cap; exact le_rfl
  | cons patch rest ih =>
    intro cap
    refine le_trans ?_ (ih _)
    dsimp only
    split_ifs with h
    · exact le_rfl
    · exact dsCapacityStep_le useSimd16 simdWidth numDsOutputAttribs cap patch.2

/-- C5 counterexample: in the SIMD16 build a TessellationStages call that
processes no patch (or any patch list) ends by freeing the thread-local DS
output buffer and setting numDSOutputVectors to 0, so a capacity of 1 from
an earlier call shrinks to 0: the tracked capacity is not monotonically
non-decreasing over the thread lifetime. -/
theorem c5_simd16_reset_counterexample :
    tessCapacityAfter true 8 1 [] 1 = 0 ∧
    ¬ (1 : Nat) ≤ tessCapacityAfter true 8 1 [] 1 := by
  constructor
  · rfl
  · intro h
    simp [tessCapacityAfter] at h

/-- C5 amended: during the patch loop the tracked DS output capacity only
grows, and in the non-SIMD16 build a TessellationStages call never shrinks
it (capacity after the call is at least the capacity before); in the SIMD16
build, however, every call ends by freeing the buffer and resetting the
tracked capacity to zero, so monotonicity holds only within a call. -/
theorem c5_ds_capacity_amended (simdWidth numDsOutputAttribs : Nat)
    (patches : List (Nat × Nat)) (cap : Nat) :
    cap ≤ tessCapacityAfter false simdWidth numDsOutputAttribs patches cap ∧
    (∀ useSimd16 numDomainPoints, cap ≤
      dsCapacityStep useSimd16 simdWidth numDsOutputAttribs cap
        numDomainPoints) ∧
    tessCapacityAfter true simdWidth numDsOutputAttribs patches cap = 0 := by
  refine ⟨?_, fun u nd => dsCapacityStep_le u simdWidth numDsOutputAttribs cap nd, ?_⟩
  · unfold tessCapacityAfter
    dsimp only
    exact tessPatchFold_le false simdWidth numDsOutputAttribs patches cap
  · unfold tessCapacityAfter
    dsimp only
    rfl

/-- Outcome of the tessellator-context initialization sequence at the start
of TessellationStages: the context handle obtained, the number of TSInitCtx
calls made, and whether the thread-local context buffer was reallocated. -/
structure TsInitOutcome (α : Type) where
  ctx : Option α
  initCalls : Nat
  reallocated : Bool

/-- The TSInitCtx call sequence of TessellationStages (frontend.cpp lines
1139-1155): a first TSInitCtx call; if and only if it returns null, the
thread-local context buffer is reallocated and TSInitCtx is called exactly
one more time, whose result is final (followed only by the SWR_ASSERT);
firstAttempt and secondAttempt are the results the external tessellator
would return for the two calls. -/
def tsInitCtxWithRetry {α : Type} (firstAttempt secondAttempt : Option α) :
    TsInitOutcome α :=
  match firstAttempt with
  | some c => { ctx := some c, initCalls := 1, reallocated := false }
  | none => { ctx := secondAttempt, initCalls := 2, reallocated := true }

/-- C9: TessellationStages calls TSInitCtx at most twice; it reallocates the
context buffer and retries exactly once precisely when the first call
returned a null handle; on a non-null first result there is no retry and no
reallocation; and the sequence yields no error value to the caller of
TessellationStages in either case (its outcome is only the context handle
for the following stage, there is no error channel). -/
theorem c9_tsinit_retry_once {α : Type}
    (firstAttempt secondAttempt : Option α) :
    (tsInitCtxWithRetry firstAttempt secondAttempt).initCalls ≤ 2 ∧
    ((tsInitCtxWithRetry firstAttempt secondAttempt).initCalls = 2
      ↔ firstAttempt = none) ∧
    ((tsInitCtxWithRetry firstAttempt secondAttempt).reallocated = true
      ↔ firstAttempt = none) ∧
    (firstAttempt = none →
      tsInitCtxWithRetry firstAttempt secondAttempt
        = { ctx := secondAttempt, initCalls := 2, reallocated := true }) ∧
    (∀ c, firstAttempt = some c →
      tsInitCtxWithRetry firstAttempt secondAttempt
        = { ctx := some c, initCalls := 1, reallocated := false }) := by
  cases firstAttempt with
  | none =>
    refine ⟨by simp [tsInitCtxWithRetry], ?_, ?_, fun _ => rfl, fun c hc => Option.noConfusion hc⟩
    · simp [tsInitCtxWithRetry]
    · simp [tsInitCtxWithRetry]
  | some c =>
    refine ⟨by simp [tsInitCtxWithRetry], ?_, ?_, fun h => Option.noConfusion h, ?_⟩
    · simp [tsInitCtxWithRetry]
    · simp [tsInitCtxWithRetry]
    · intro d hd
      rw [Option.some_inj.mp hd] at *
      rfl

/-- C9 witness: a null first attempt followed by a successful second attempt
makes exactly 2 TSInitCtx calls after one reallocation. -/
theorem c9_tsinit_retry_once_witness :
    tsInitCtxWithRetry (none : Option Unit) (some ())
      = { ctx := some (), initCalls := 2, reallocated := true } :=
  (c9_tsinit_retry_once (none : Option Unit) (some ())).2.2.2.1 rfl

end Frontend
